import Mathlib

/-!
Shallow embedding of the YouTube downloader HTTP service (src/main.py).

The service is a single FastAPI endpoint `POST /download` protected by a
bearer-style API key.  It invokes yt-dlp to download a video into a scratch
directory, optionally uploads the result to S3 and mints a presigned URL,
and always deletes the scratch file in a `finally` block.

The embedding models the handler as a pure function of
  - the process configuration (environment variables read at startup),
  - the inbound request (Authorization header plus JSON body), and
  - an `Env` value capturing everything nondeterministic the handler
    interacts with: the generated UUID, the working directory, the outcome
    of the yt-dlp invocation (including whether a file is left on disk),
    the outcome of the S3 client calls, and whether removal of the scratch
    file fails with an OSError.

Exceptions are modelled explicitly, because the control flow of the handler
hinges on them: FastAPI `HTTPException`s raised inside the outer `try`
block of `download_video` are themselves caught by the generic
`except Exception` clause (HTTPException is an Exception subclass), which
replaces them with a 500 whose detail wraps `str(e)`; Starlette renders
`str` of an HTTPException as `"<status>: <detail>"`.
-/

namespace YtDl

/-- Is the second character list an initial segment of the first?
Structural worker for `pyStartsWith`. -/
def listIsInit : List Char → List Char → Bool
  | _, [] => true
  | [], _ :: _ => false
  | c :: cs, d :: ds => c = d && listIsInit cs ds

/-- Python `str.startswith`, over the underlying characters. -/
def pyStartsWith (s pat : String) : Bool :=
  listIsInit s.data pat.data

/-- Structural worker for `pySplit`: split a character list at every
occurrence of the separator, keeping empty pieces. -/
def splitChars (sep : Char) : List Char → List (List Char)
  | [] => [[]]
  | c :: cs =>
    match splitChars sep cs with
    | [] => [[]]
    | h :: t => if c = sep then [] :: h :: t else (c :: h) :: t

/-- Python `str.split(sep)` with an explicit one-character separator:
splits at every occurrence and keeps empty pieces, so
`"a  b".split(" ")` yields `["a", "", "b"]`. -/
def pySplit (s : String) (sep : Char) : List String :=
  (splitChars sep s.data).map String.mk

/-- Python slicing `s[n:]`, over the underlying characters. -/
def pyDrop (s : String) (n : Nat) : String :=
  ⟨s.data.drop n⟩

/-- A FastAPI HTTPException: status code plus human-readable detail. -/
structure HTTPError where
  status : Nat
  detail : String
deriving DecidableEq, Repr

/-- Process configuration read from environment variables at startup
(src/main.py lines 40-44).  Each storage variable is `none` when the
variable is unset; Python also treats the empty string as falsy. -/
structure Config where
  apiKey : String
  s3Bucket : Option String
  awsAccessKeyId : Option String
  awsSecretAccessKey : Option String
  awsRegion : Option String
deriving DecidableEq, Repr

/-- Python truthiness of an optional environment string:
`None` and `""` are falsy, every other string is truthy. -/
def pyTruthy : Option String → Bool
  | none => false
  | some s => s != ""

/-- Truthiness of `all([S3_BUCKET, AWS_ACCESS_KEY_ID, AWS_SECRET_ACCESS_KEY, AWS_REGION])`
as used at src/main.py lines 49 and 137. -/
def storageConfigured (c : Config) : Bool :=
  pyTruthy c.s3Bucket && pyTruthy c.awsAccessKeyId &&
    pyTruthy c.awsSecretAccessKey && pyTruthy c.awsRegion

/-- The dependency `fastapi.security.APIKeyHeader(name="Authorization", auto_error=True)`
(src/main.py line 59): when the header is absent, or present with a falsy
(empty) value, FastAPI raises HTTPException(403, "Not authenticated")
before the `get_api_key` dependency body runs. -/
def apiKeyHeaderCheck (header : Option String) : Except HTTPError String :=
  match header with
  | none => .error ⟨403, "Not authenticated"⟩
  | some k => if k = "" then .error ⟨403, "Not authenticated"⟩ else .ok k

/-- Function `get_api_key` (src/main.py lines 61-74): the header value must start
with "Bearer ", and `key.split(" ")[1]` must equal the configured API key.
Because a value starting with "Bearer " always contains a space,
`split(" ")` always yields at least two items there, so the `getD`
default is never taken. -/
def get_api_key (apiKey : String) (key : String) : Except HTTPError String :=
  if !(pyStartsWith key "Bearer ") then
    .error ⟨401, "Formato de \x27Authorization\x27 header inválido. Usar \x27Bearer <clave>\x27."⟩
  else
    let token := (pySplit key ' ').getD 1 ""
    if token ≠ apiKey then
      .error ⟨401, "API Key inválido o expirado."⟩
    else
      .ok token

/-- The complete authentication dependency as FastAPI runs it: header
extraction by APIKeyHeader, then `get_api_key`. -/
def authenticate (apiKey : String) (header : Option String) : Except HTTPError String :=
  match apiKeyHeaderCheck header with
  | .error e => .error e
  | .ok k => get_api_key apiKey k

/-- The JSON request body before validation; `none` marks an absent field. -/
structure RequestBody where
  url : Option String
  format : Option String
  to_s3 : Option Bool
deriving DecidableEq, Repr

/-- The validated `DownloadRequest` model (src/main.py lines 53-56). -/
structure DownloadRequest where
  url : String
  format : String
  to_s3 : Bool
deriving DecidableEq, Repr

/-- Pydantic `HttpUrl` validity (src/main.py line 54), modelled: the string
must carry an http or https scheme followed by a nonempty host. -/
def isValidHttpUrl (s : String) : Bool :=
  (pyStartsWith s "http://" && (pySplit (pyDrop s 7) '/').getD 0 "" != "")
    || (pyStartsWith s "https://" && (pySplit (pyDrop s 8) '/').getD 0 "" != "")

/-- FastAPI/pydantic validation of the request body into a
`DownloadRequest`: a missing `url` field or an invalid URL raises
`RequestValidationError`, which the default FastAPI handler turns into a
422 response; `format` defaults to "mp4" and `to_s3` defaults to `true`
(src/main.py lines 53-56). -/
def validateRequest (b : RequestBody) : Except HTTPError DownloadRequest :=
  match b.url with
  | none => .error ⟨422, "Field required"⟩
  | some u =>
    if isValidHttpUrl u then
      .ok ⟨u, b.format.getD "mp4", b.to_s3.getD true⟩
    else
      .error ⟨422, "Input should be a valid URL"⟩

/-- Outcome of the `ydl.download([...])` call together with the state it
leaves on disk: the call either returns normally (the Bool records whether
the output file was actually created), raises `yt_dlp.utils.DownloadError`,
or raises some other exception; in the error cases the Bool records
whether a leftover file sits at `output_path`. -/
inductive DlResult where
  | success (fileCreated : Bool)
  | downloadError (msg : String) (fileLeft : Bool)
  | unexpectedError (msg : String) (fileLeft : Bool)
deriving DecidableEq, Repr

/-- Outcome of the boto3 upload + presign sequence (src/main.py lines
141-156): success carries the presigned URL the client returns;
`noCredentials` stands for NoCredentialsError and its
missing-credentials sibling; `clientError` carries `str(e)` of a
botocore ClientError. -/
inductive S3Result where
  | ok (presignedUrl : String)
  | noCredentials
  | clientError (msg : String)
deriving DecidableEq, Repr

/-- Everything nondeterministic a single handler invocation observes. -/
structure Env where
  uuid : String
  cwd : String
  dl : DlResult
  s3 : S3Result
  removeFails : Bool
deriving DecidableEq, Repr

/-- Replace the removal outcome, leaving the rest of the environment
untouched; used to state that the response never depends on it. -/
def Env.withRemoveFails (e : Env) (b : Bool) : Env :=
  { e with removeFails := b }

/-- Constant `TEMP_DIR` (src/main.py line 77). -/
def TEMP_DIR : String := "temp_downloads"

/-- Model of `os.path.join` for the two-component use at src/main.py line 104. -/
def os_path_join (a b : String) : String := a ++ "/" ++ b

/-- Model of `os.path.abspath` for a path relative to the working directory
(src/main.py line 172). -/
def os_path_abspath (cwd p : String) : String := cwd ++ "/" ++ p

/-- One entry of the `postprocessors` list handed to yt-dlp. -/
structure PostProcessor where
  key : String
  preferedformat : String
deriving DecidableEq, Repr

/-- The option structure handed to `yt_dlp.YoutubeDL` (logger and
progress_hooks omitted: they carry no download semantics). -/
structure YdlOpts where
  format : String
  outtmpl : String
  merge_output_format : String
  postprocessors : List PostProcessor
  noplaylist : Bool
deriving DecidableEq, Repr

/-- Options `ydl_opts` (src/main.py lines 111-122).  Note the format selector is
the f-string `bestvideo[ext={format}]+bestaudio/best`, only two
"/"-separated alternatives. -/
def ydlOpts (req : DownloadRequest) (output_path : String) : YdlOpts :=
  { format := "bestvideo[ext=" ++ req.format ++ "]+bestaudio/best"
    outtmpl := output_path
    merge_output_format := req.format
    postprocessors := [⟨"FFmpegVideoConvertor", req.format⟩]
    noplaylist := true }

/-- The response the service delivers for one request. -/
inductive ResponseBody where
  | fileUrl (url : String)
  | localFile (message filename local_path : String)
  | errorDetail (detail : String)
deriving DecidableEq, Repr

/-- An HTTP response: status plus body. -/
structure Response where
  status : Nat
  body : ResponseBody
deriving DecidableEq, Repr

/-- The exceptions that can escape the outer `try` body of
`download_video`. -/
inductive Exc where
  | http (e : HTTPError)
  | downloadErr (msg : String)
  | other (msg : String)
deriving DecidableEq, Repr

/-- Python `str()` of those exceptions: the Starlette HTTPException prints
as `"<status>: <detail>"`; the others print their message. -/
def strOfExc : Exc → String
  | .http e => toString e.status ++ ": " ++ e.detail
  | .downloadErr m => m
  | .other m => m

/-- Record of a completed `upload_file` + `generate_presigned_url` pair
(src/main.py lines 149-156). -/
structure S3Call where
  uploadPath : String
  uploadBucket : String
  uploadKey : String
  presignBucket : String
  presignKey : String
  expiresIn : Nat
deriving DecidableEq, Repr

/-- The body of the outer `try` of `download_video` (src/main.py lines
127-173): runs yt-dlp, checks the output file, and either uploads to S3
or builds the local-path response.  Returns the value returned or the
exception raised, the S3 call completed (if any), and whether a file
exists at `output_path` when the `finally` block runs. -/
def runTry (cfg : Config) (req : DownloadRequest) (env : Env)
    (output_path output_filename : String) :
    Except Exc ResponseBody × Option S3Call × Bool :=
  match env.dl with
  | .downloadError m fl => (.error (.downloadErr m), none, fl)
  | .unexpectedError m fl => (.error (.other m), none, fl)
  | .success fc =>
    if !fc then
      (.error (.http ⟨500, "El archivo no se generó después de la descarga."⟩), none, false)
    else if req.to_s3 then
      if !(storageConfigured cfg) then
        (.error (.http ⟨501, "El servidor no está configurado para subir a S3."⟩), none, true)
      else
        match env.s3 with
        | .ok url =>
          (.ok (.fileUrl url),
            some ⟨output_path, cfg.s3Bucket.getD "", output_filename,
                  cfg.s3Bucket.getD "", output_filename, 3600⟩, true)
        | .noCredentials =>
          (.error (.http ⟨500, "Error de configuración de credenciales de AWS."⟩), none, true)
        | .clientError m =>
          (.error (.http ⟨500, "Error al interactuar con S3: " ++ m⟩), none, true)
    else
      (.ok (.localFile "Archivo descargado localmente." output_filename
        (os_path_abspath env.cwd output_path)), none, true)

/-- The two outer `except` clauses (src/main.py lines 175-180): a
DownloadError becomes a 400; every other exception — including the
HTTPExceptions raised inside the `try` block — is caught by
`except Exception` and becomes a 500 wrapping `str(e)`. -/
def handleExc : Exc → Response
  | .downloadErr m => ⟨400, .errorDetail ("No se pudo descargar el video. Causa: " ++ m)⟩
  | e => ⟨500, .errorDetail ("Error interno del servidor: " ++ strOfExc e)⟩

/-- The `finally` block (src/main.py lines 181-188): if a file exists at
`output_path`, `os.remove` is attempted; an OSError from the removal is
caught and logged, leaving the file in place and the outcome unchanged.
Returns (file exists afterwards, removal attempted). -/
def runFinally (fileExists removeFails : Bool) : Bool × Bool :=
  if fileExists then (removeFails, true) else (false, false)

/-- Everything observable about one handler invocation. -/
structure HandlerResult where
  response : Response
  opts : Option YdlOpts
  s3Call : Option S3Call
  fileAtEnd : Bool
  removalAttempted : Bool
  toolInvoked : Bool
deriving DecidableEq, Repr

/-- Handler `download_video` (src/main.py lines 96-188), after authentication and
body validation have succeeded: derive the filename and path of the job from
the generated UUID, run the `try` body, map a raised exception through
the `except` clauses, then run the `finally` cleanup. -/
def download_video (cfg : Config) (req : DownloadRequest) (env : Env) : HandlerResult :=
  let output_filename := env.uuid ++ "." ++ req.format
  let output_path := os_path_join TEMP_DIR output_filename
  let r := runTry cfg req env output_path output_filename
  let resp : Response :=
    match r.1 with
    | .ok b => ⟨200, b⟩
    | .error e => handleExc e
  let fin := runFinally r.2.2 env.removeFails
  ⟨resp, some (ydlOpts req output_path), r.2.1, fin.1, fin.2, true⟩

/-- The result when a request is rejected before the handler body runs
(authentication or validation failure): the error becomes the response,
yt-dlp is never invoked and no scratch file ever exists. -/
def rejected (e : HTTPError) : HandlerResult :=
  ⟨⟨e.status, .errorDetail e.detail⟩, none, none, false, false, false⟩

/-- The full `POST /download` endpoint: FastAPI resolves the
`Security(get_api_key)` dependency first (src/main.py line 96); only if
it succeeds is the body validated into a `DownloadRequest`, and only
then does the handler body run. -/
def endpoint (cfg : Config) (header : Option String) (body : RequestBody)
    (env : Env) : HandlerResult :=
  match authenticate cfg.apiKey header with
  | .error e => rejected e
  | .ok _ =>
    match validateRequest body with
    | .error e => rejected e
    | .ok req => download_video cfg req env

end YtDl
deriving instance DecidableEq for Except

namespace YtDl

/-- Associativity of string concatenation, used to normalise wrapped
error-detail strings. -/
theorem str_append_assoc (a b c : String) : a ++ b ++ c = a ++ (b ++ c) := by
  rcases a with ⟨a⟩; rcases b with ⟨b⟩; rcases c with ⟨c⟩
  show String.append (String.append ⟨a⟩ ⟨b⟩) ⟨c⟩ = String.append ⟨a⟩ (String.append ⟨b⟩ ⟨c⟩)
  simp [String.append]

/-- With removal succeeding, the finally block never leaves a file behind. -/
theorem runFinally_fst_of_removeOk (fe : Bool) : (runFinally fe false).1 = false := by
  cases fe <;> rfl

/-- Claim C1, counterexample: with to_s3 = true, S3_BUCKET missing and a
successful download, the delivered status is 500 and not 501 — the 501
HTTPException raised at src/main.py line 138 is caught by the generic
except clause at line 178 and replaced by a 500. -/
theorem C1_counterexample :
    (endpoint ⟨"secret", none, some "ak", some "sk", some "eu"⟩ (some "Bearer secret")
      ⟨some "https://youtu.be/abc", some "mp4", some true⟩
      ⟨"job1", "/srv", .success true, .ok "https://presigned", false⟩).response.status = 500
    ∧ ¬ ((endpoint ⟨"secret", none, some "ak", some "sk", some "eu"⟩ (some "Bearer secret")
      ⟨some "https://youtu.be/abc", some "mp4", some true⟩
      ⟨"job1", "/srv", .success true, .ok "https://presigned", false⟩).response.status = 501) := by
  constructor <;> decide

/-- Claim C1 (amended): with to_s3 = true and incomplete storage
credentials, the response depends on the download outcome after all: when
the download succeeds and the file exists, the raised 501 is swallowed by
the catch-all and the delivered response is a 500 wrapping the 501 detail;
when the download raises a DownloadError, the response is 400. -/
theorem C1_amended (cfg : Config) (req : DownloadRequest) (env : Env)
    (hs3 : req.to_s3 = true) (hcfg : storageConfigured cfg = false) :
    (env.dl = .success true →
      (download_video cfg req env).response =
        ⟨500, .errorDetail "Error interno del servidor: 501: El servidor no está configurado para subir a S3."⟩)
    ∧ (∀ m fl, env.dl = .downloadError m fl →
        (download_video cfg req env).response =
          ⟨400, .errorDetail ("No se pudo descargar el video. Causa: " ++ m)⟩) := by
  obtain ⟨u, cw, dl, s3, rf⟩ := env
  constructor
  · intro h
    simp only at h
    subst h
    simp [download_video, runTry, hs3, hcfg, handleExc, strOfExc, runFinally]
    decide
  · intro m fl h
    simp only at h
    subst h
    simp [download_video, runTry, handleExc, runFinally]

/-- Claim C1 witness: a concrete request exercising the amended claim. -/
theorem C1_amended_witness :
    (download_video ⟨"secret", none, some "ak", some "sk", some "eu"⟩
      ⟨"https://youtu.be/abc", "mp4", true⟩
      ⟨"job1", "/srv", .success true, .ok "https://presigned", false⟩).response =
    ⟨500, .errorDetail "Error interno del servidor: 501: El servidor no está configurado para subir a S3."⟩ :=
  (C1_amended ⟨"secret", none, some "ak", some "sk", some "eu"⟩
    ⟨"https://youtu.be/abc", "mp4", true⟩
    ⟨"job1", "/srv", .success true, .ok "https://presigned", false⟩
    rfl (by decide)).1 rfl

/-- Claim C2: at format "mp4" the selector actually handed to yt-dlp is
"bestvideo[ext=mp4]+bestaudio/best", which has only two "/"-separated
alternatives and omits the pre-merged in-container fallback
"best[ext=mp4]" that both the claim and the adjacent comment in the code
(src/main.py lines 107-110) describe; the merge target, the FFmpeg
post-processing target and the playlist-disabling flag do match the
claim. -/
theorem C2_selector_two_alternatives :
    ((ydlOpts ⟨"https://youtu.be/abc", "mp4", true⟩ "temp_downloads/x.mp4").format
      = "bestvideo[ext=mp4]+bestaudio/best")
    ∧ (pySplit (ydlOpts ⟨"https://youtu.be/abc", "mp4", true⟩ "temp_downloads/x.mp4").format '/'
      = ["bestvideo[ext=mp4]+bestaudio", "best"])
    ∧ ¬ ("best[ext=mp4]" ∈
      pySplit (ydlOpts ⟨"https://youtu.be/abc", "mp4", true⟩ "temp_downloads/x.mp4").format '/')
    ∧ (ydlOpts ⟨"https://youtu.be/abc", "mp4", true⟩ "temp_downloads/x.mp4").merge_output_format = "mp4"
    ∧ (ydlOpts ⟨"https://youtu.be/abc", "mp4", true⟩ "temp_downloads/x.mp4").postprocessors
      = [⟨"FFmpegVideoConvertor", "mp4"⟩]
    ∧ (ydlOpts ⟨"https://youtu.be/abc", "mp4", true⟩ "temp_downloads/x.mp4").noplaylist = true := by
  refine ⟨rfl, by decide, by decide, rfl, rfl, rfl⟩

/-- Claim C3: when yt-dlp returns normally but no file exists at the
output path the delivered status is 500, and when yt-dlp raises a
DownloadError the delivered status is 400. -/
theorem C3_missing_file_500_dlerror_400 (cfg : Config) (req : DownloadRequest) (env : Env) :
    (env.dl = .success false → (download_video cfg req env).response.status = 500)
    ∧ (∀ m fl, env.dl = .downloadError m fl →
        (download_video cfg req env).response.status = 400) := by
  obtain ⟨u, cw, dl, s3, rf⟩ := env
  constructor
  · intro h; simp only at h; subst h
    simp [download_video, runTry, handleExc, strOfExc, runFinally]
  · intro m fl h; simp only at h; subst h
    simp [download_video, runTry, handleExc, runFinally]

/-- Claim C3 witness: both branches at concrete inputs. -/
theorem C3_witness :
    (download_video ⟨"secret", some "b", some "ak", some "sk", some "eu"⟩
      ⟨"https://youtu.be/abc", "mp4", true⟩
      ⟨"j1", "/srv", .success false, .ok "u", false⟩).response.status = 500
    ∧ (download_video ⟨"secret", some "b", some "ak", some "sk", some "eu"⟩
      ⟨"https://youtu.be/abc", "mp4", true⟩
      ⟨"j1", "/srv", .downloadError "boom" false, .ok "u", false⟩).response.status = 400 :=
  ⟨(C3_missing_file_500_dlerror_400 ⟨"secret", some "b", some "ak", some "sk", some "eu"⟩
      ⟨"https://youtu.be/abc", "mp4", true⟩
      ⟨"j1", "/srv", .success false, .ok "u", false⟩).1 rfl,
   (C3_missing_file_500_dlerror_400 ⟨"secret", some "b", some "ak", some "sk", some "eu"⟩
      ⟨"https://youtu.be/abc", "mp4", true⟩
      ⟨"j1", "/srv", .downloadError "boom" false, .ok "u", false⟩).2 "boom" false rfl⟩

/-- Claim C4, counterexample: a request with no Authorization header at
all is rejected with status 403 (APIKeyHeader auto_error), not 401. -/
theorem C4_counterexample :
    (endpoint ⟨"secret", some "b", some "ak", some "sk", some "eu"⟩ none
      ⟨some "https://youtu.be/abc", some "mp4", some true⟩
      ⟨"j", "/srv", .success true, .ok "u", false⟩).response.status = 403
    ∧ ¬ ((endpoint ⟨"secret", some "b", some "ak", some "sk", some "eu"⟩ none
      ⟨some "https://youtu.be/abc", some "mp4", some true⟩
      ⟨"j", "/srv", .success true, .ok "u", false⟩).response.status = 401) := by
  constructor <;> decide

/-- Claim C4 (amended): an absent (or empty) Authorization header yields
403 from the APIKeyHeader auto_error; a nonempty header not starting with
"Bearer ", or one whose first space-separated token after "Bearer"
differs from the API key, yields 401; in all these cases yt-dlp is never
invoked, and the outcome is independent of the request body, so the
authentication check runs before request-body processing. -/
theorem C4_amended (cfg : Config) (header : Option String) (body : RequestBody) (env : Env) :
    (header = none →
      (endpoint cfg header body env).response.status = 403
      ∧ (endpoint cfg header body env).toolInvoked = false)
    ∧ (∀ k, header = some k → k ≠ "" → pyStartsWith k "Bearer " = false →
      (endpoint cfg header body env).response.status = 401
      ∧ (endpoint cfg header body env).toolInvoked = false)
    ∧ (∀ k, header = some k → k ≠ "" → pyStartsWith k "Bearer " = true →
        (pySplit k ' ').getD 1 "" ≠ cfg.apiKey →
      (endpoint cfg header body env).response.status = 401
      ∧ (endpoint cfg header body env).toolInvoked = false)
    ∧ (∀ e, authenticate cfg.apiKey header = .error e →
      ∀ body2, endpoint cfg header body env = endpoint cfg header body2 env) := by
  refine ⟨?_, ?_, ?_, ?_⟩
  · intro h; subst h
    simp [endpoint, authenticate, apiKeyHeaderCheck, rejected]
  · intro k hk hne hb; subst hk
    simp [endpoint, authenticate, apiKeyHeaderCheck, hne, get_api_key, hb, rejected]
  · intro k hk hne hb htok; subst hk
    simp only [List.getD, List.get?_eq_getElem?] at htok
    simp [endpoint, authenticate, apiKeyHeaderCheck, hne, get_api_key, hb, htok, rejected]
  · intro e he body2
    simp [endpoint, he]

/-- Claim C4 witness: the three rejection shapes at concrete inputs. -/
theorem C4_amended_witness :
    ((endpoint ⟨"secret", some "b", some "ak", some "sk", some "eu"⟩ none
      ⟨some "https://youtu.be/abc", some "mp4", some true⟩
      ⟨"j", "/srv", .success true, .ok "u", false⟩).response.status = 403
    ∧ (endpoint ⟨"secret", some "b", some "ak", some "sk", some "eu"⟩ none
      ⟨some "https://youtu.be/abc", some "mp4", some true⟩
      ⟨"j", "/srv", .success true, .ok "u", false⟩).toolInvoked = false)
    ∧ ((endpoint ⟨"secret", some "b", some "ak", some "sk", some "eu"⟩ (some "Token secret")
      ⟨some "https://youtu.be/abc", some "mp4", some true⟩
      ⟨"j", "/srv", .success true, .ok "u", false⟩).response.status = 401
    ∧ (endpoint ⟨"secret", some "b", some "ak", some "sk", some "eu"⟩ (some "Token secret")
      ⟨some "https://youtu.be/abc", some "mp4", some true⟩
      ⟨"j", "/srv", .success true, .ok "u", false⟩).toolInvoked = false)
    ∧ ((endpoint ⟨"secret", some "b", some "ak", some "sk", some "eu"⟩ (some "Bearer wrong")
      ⟨some "https://youtu.be/abc", some "mp4", some true⟩
      ⟨"j", "/srv", .success true, .ok "u", false⟩).response.status = 401
    ∧ (endpoint ⟨"secret", some "b", some "ak", some "sk", some "eu"⟩ (some "Bearer wrong")
      ⟨some "https://youtu.be/abc", some "mp4", some true⟩
      ⟨"j", "/srv", .success true, .ok "u", false⟩).toolInvoked = false) :=
  ⟨(C4_amended ⟨"secret", some "b", some "ak", some "sk", some "eu"⟩ none
      ⟨some "https://youtu.be/abc", some "mp4", some true⟩
      ⟨"j", "/srv", .success true, .ok "u", false⟩).1 rfl,
   (C4_amended ⟨"secret", some "b", some "ak", some "sk", some "eu"⟩ (some "Token secret")
      ⟨some "https://youtu.be/abc", some "mp4", some true⟩
      ⟨"j", "/srv", .success true, .ok "u", false⟩).2.1 "Token secret" rfl (by decide) (by decide),
   (C4_amended ⟨"secret", some "b", some "ak", some "sk", some "eu"⟩ (some "Bearer wrong")
      ⟨some "https://youtu.be/abc", some "mp4", some true⟩
      ⟨"j", "/srv", .success true, .ok "u", false⟩).2.2.1 "Bearer wrong" rfl (by decide) (by decide)
      (by decide)⟩

end YtDl
namespace YtDl

/-- Claim C5: with to_s3 = true, complete storage credentials, a
successful download and successful storage calls, the response is 200
with the presigned URL, the uploaded object key and the presigned key
both equal the generated job filename `uuid.format`, and the presign
expiry is exactly 3600 seconds. -/
theorem C5_upload_200_presigned (cfg : Config) (req : DownloadRequest) (env : Env)
    (url : String)
    (hs3 : req.to_s3 = true) (hcfg : storageConfigured cfg = true)
    (hdl : env.dl = .success true) (hs : env.s3 = .ok url) :
    (download_video cfg req env).response = ⟨200, .fileUrl url⟩
    ∧ (download_video cfg req env).s3Call =
      some ⟨os_path_join TEMP_DIR (env.uuid ++ "." ++ req.format), cfg.s3Bucket.getD "",
            env.uuid ++ "." ++ req.format, cfg.s3Bucket.getD "",
            env.uuid ++ "." ++ req.format, 3600⟩ := by
  obtain ⟨u, cw, dl, s3, rf⟩ := env
  simp only at hdl hs
  subst hdl; subst hs
  constructor <;>
    simp [download_video, runTry, hs3, hcfg, runFinally]

/-- Claim C5 witness: a concrete fully-configured upload run. -/
theorem C5_witness :
    (download_video ⟨"secret", some "bkt", some "ak", some "sk", some "eu"⟩
      ⟨"https://youtu.be/abc", "mp4", true⟩
      ⟨"j1", "/srv", .success true, .ok "https://presigned/u", false⟩).response
      = ⟨200, .fileUrl "https://presigned/u"⟩
    ∧ (download_video ⟨"secret", some "bkt", some "ak", some "sk", some "eu"⟩
      ⟨"https://youtu.be/abc", "mp4", true⟩
      ⟨"j1", "/srv", .success true, .ok "https://presigned/u", false⟩).s3Call
      = some ⟨"temp_downloads/j1.mp4", "bkt", "j1.mp4", "bkt", "j1.mp4", 3600⟩ :=
  C5_upload_200_presigned ⟨"secret", some "bkt", some "ak", some "sk", some "eu"⟩
    ⟨"https://youtu.be/abc", "mp4", true⟩
    ⟨"j1", "/srv", .success true, .ok "https://presigned/u", false⟩
    "https://presigned/u" rfl (by decide) rfl rfl

/-- Claim C6: the finally-block cleanup holds on every exit path — when
removal succeeds no file remains at the output path after the handler
returns, and the response and the S3 interaction are independent of
whether the removal fails (a removal failure is only logged). -/
theorem C6_cleanup_every_path (cfg : Config) (req : DownloadRequest) (env : Env) :
    (env.removeFails = false → (download_video cfg req env).fileAtEnd = false)
    ∧ (∀ b, (download_video cfg req (env.withRemoveFails b)).response
        = (download_video cfg req env).response
      ∧ (download_video cfg req (env.withRemoveFails b)).s3Call
        = (download_video cfg req env).s3Call) := by
  obtain ⟨u, cw, dl, s3, rf⟩ := env
  constructor
  · intro h; simp only at h; subst h
    simp [download_video, runFinally_fst_of_removeOk]
  · intro b; exact ⟨rfl, rfl⟩

/-- Claim C6 witness: concrete cleanup run plus removal-failure
independence. -/
theorem C6_witness :
    (download_video ⟨"secret", some "bkt", some "ak", some "sk", some "eu"⟩
      ⟨"https://youtu.be/abc", "mp4", false⟩
      ⟨"j1", "/srv", .success true, .ok "u", false⟩).fileAtEnd = false
    ∧ (download_video ⟨"secret", some "bkt", some "ak", some "sk", some "eu"⟩
      ⟨"https://youtu.be/abc", "mp4", false⟩
      ((⟨"j1", "/srv", .success true, .ok "u", false⟩ : Env).withRemoveFails true)).response
      = (download_video ⟨"secret", some "bkt", some "ak", some "sk", some "eu"⟩
      ⟨"https://youtu.be/abc", "mp4", false⟩
      ⟨"j1", "/srv", .success true, .ok "u", false⟩).response :=
  ⟨(C6_cleanup_every_path ⟨"secret", some "bkt", some "ak", some "sk", some "eu"⟩
      ⟨"https://youtu.be/abc", "mp4", false⟩
      ⟨"j1", "/srv", .success true, .ok "u", false⟩).1 rfl,
   ((C6_cleanup_every_path ⟨"secret", some "bkt", some "ak", some "sk", some "eu"⟩
      ⟨"https://youtu.be/abc", "mp4", false⟩
      ⟨"j1", "/srv", .success true, .ok "u", false⟩).2 true).1⟩

/-- Claim C7: with to_s3 = false and a successful download, the response
is 200 carrying the generated filename and the absolute output path as
computed at response construction; when removal succeeds the file is gone
before the handler returns, and the response (hence the reported path
string) is unaffected by the removal outcome. -/
theorem C7_local_response_then_delete (cfg : Config) (req : DownloadRequest) (env : Env)
    (hs3 : req.to_s3 = false) (hdl : env.dl = .success true) :
    (download_video cfg req env).response =
      ⟨200, .localFile "Archivo descargado localmente." (env.uuid ++ "." ++ req.format)
        (os_path_abspath env.cwd (os_path_join TEMP_DIR (env.uuid ++ "." ++ req.format)))⟩
    ∧ (env.removeFails = false → (download_video cfg req env).fileAtEnd = false)
    ∧ (∀ b, (download_video cfg req (env.withRemoveFails b)).response
        = (download_video cfg req env).response) := by
  obtain ⟨u, cw, dl, s3, rf⟩ := env
  simp only at hdl; subst hdl
  refine ⟨?_, ?_, ?_⟩
  · simp [download_video, runTry, hs3, runFinally]
  · intro h; simp only at h; subst h
    simp [download_video, runFinally_fst_of_removeOk]
  · intro b; rfl

/-- Claim C7 witness: a concrete local-delivery run. -/
theorem C7_witness :
    (download_video ⟨"secret", some "bkt", some "ak", some "sk", some "eu"⟩
      ⟨"https://youtu.be/abc", "mp4", false⟩
      ⟨"j1", "/srv", .success true, .ok "u", false⟩).response =
      ⟨200, .localFile "Archivo descargado localmente." "j1.mp4" "/srv/temp_downloads/j1.mp4"⟩
    ∧ (download_video ⟨"secret", some "bkt", some "ak", some "sk", some "eu"⟩
      ⟨"https://youtu.be/abc", "mp4", false⟩
      ⟨"j1", "/srv", .success true, .ok "u", false⟩).fileAtEnd = false :=
  ⟨(C7_local_response_then_delete ⟨"secret", some "bkt", some "ak", some "sk", some "eu"⟩
      ⟨"https://youtu.be/abc", "mp4", false⟩
      ⟨"j1", "/srv", .success true, .ok "u", false⟩ rfl rfl).1,
   (C7_local_response_then_delete ⟨"secret", some "bkt", some "ak", some "sk", some "eu"⟩
      ⟨"https://youtu.be/abc", "mp4", false⟩
      ⟨"j1", "/srv", .success true, .ok "u", false⟩ rfl rfl).2.1 rfl⟩

/-- Claim C8, counterexample: a syntactically invalid url is rejected
with the FastAPI validation status 422, not 400, and yt-dlp is never
invoked. -/
theorem C8_counterexample :
    (endpoint ⟨"secret", some "b", some "ak", some "sk", some "eu"⟩ (some "Bearer secret")
      ⟨some "notaurl", none, none⟩
      ⟨"j", "/srv", .success true, .ok "u", false⟩).response.status = 422
    ∧ ¬ ((endpoint ⟨"secret", some "b", some "ak", some "sk", some "eu"⟩ (some "Bearer secret")
      ⟨some "notaurl", none, none⟩
      ⟨"j", "/srv", .success true, .ok "u", false⟩).response.status = 400)
    ∧ (endpoint ⟨"secret", some "b", some "ak", some "sk", some "eu"⟩ (some "Bearer secret")
      ⟨some "notaurl", none, none⟩
      ⟨"j", "/srv", .success true, .ok "u", false⟩).toolInvoked = false := by
  refine ⟨by decide, by decide, by decide⟩

/-- Claim C8 (amended): for an authenticated request whose url field is
missing or not a syntactically valid absolute URL, the response status is
422 (FastAPI RequestValidationError) and the external download tool is
never invoked. -/
theorem C8_amended (cfg : Config) (header : Option String) (body : RequestBody) (env : Env)
    (t : String) (hauth : authenticate cfg.apiKey header = .ok t) :
    (body.url = none →
      (endpoint cfg header body env).response.status = 422
      ∧ (endpoint cfg header body env).toolInvoked = false)
    ∧ (∀ u, body.url = some u → isValidHttpUrl u = false →
      (endpoint cfg header body env).response.status = 422
      ∧ (endpoint cfg header body env).toolInvoked = false) := by
  obtain ⟨burl, bfmt, bs3⟩ := body
  constructor
  · intro h; simp only at h; subst h
    simp [endpoint, hauth, validateRequest, rejected]
  · intro u h hu; simp only at h; subst h
    simp [endpoint, hauth, validateRequest, hu, rejected]

/-- Claim C8 witness: missing url and invalid url at concrete inputs. -/
theorem C8_amended_witness :
    ((endpoint ⟨"secret", some "b", some "ak", some "sk", some "eu"⟩ (some "Bearer secret")
      ⟨none, none, none⟩ ⟨"j", "/srv", .success true, .ok "u", false⟩).response.status = 422
    ∧ (endpoint ⟨"secret", some "b", some "ak", some "sk", some "eu"⟩ (some "Bearer secret")
      ⟨none, none, none⟩ ⟨"j", "/srv", .success true, .ok "u", false⟩).toolInvoked = false)
    ∧ ((endpoint ⟨"secret", some "b", some "ak", some "sk", some "eu"⟩ (some "Bearer secret")
      ⟨some "notaurl", none, none⟩ ⟨"j", "/srv", .success true, .ok "u", false⟩).response.status = 422
    ∧ (endpoint ⟨"secret", some "b", some "ak", some "sk", some "eu"⟩ (some "Bearer secret")
      ⟨some "notaurl", none, none⟩ ⟨"j", "/srv", .success true, .ok "u", false⟩).toolInvoked = false) :=
  ⟨(C8_amended ⟨"secret", some "b", some "ak", some "sk", some "eu"⟩ (some "Bearer secret")
      ⟨none, none, none⟩ ⟨"j", "/srv", .success true, .ok "u", false⟩ "secret" (by decide)).1 rfl,
   (C8_amended ⟨"secret", some "b", some "ak", some "sk", some "eu"⟩ (some "Bearer secret")
      ⟨some "notaurl", none, none⟩ ⟨"j", "/srv", .success true, .ok "u", false⟩ "secret"
      (by decide)).2 "notaurl" rfl (by decide)⟩

/-- Claim C9: every HTTPException raised inside the try block — the 500
for a missing output file, the 501 for unconfigured storage, the 500 for
missing AWS credentials and the 500 for an S3 client error — is
intercepted by the generic except clause, and the delivered response is a
500 whose detail is "Error interno del servidor: " wrapping str(e), i.e.
the original status and detail. -/
theorem C9_catchall_wraps (cfg : Config) (req : DownloadRequest) (env : Env) :
    (env.dl = .success false →
      (download_video cfg req env).response =
        ⟨500, .errorDetail "Error interno del servidor: 500: El archivo no se generó después de la descarga."⟩)
    ∧ (env.dl = .success true → req.to_s3 = true → storageConfigured cfg = false →
      (download_video cfg req env).response =
        ⟨500, .errorDetail "Error interno del servidor: 501: El servidor no está configurado para subir a S3."⟩)
    ∧ (env.dl = .success true → req.to_s3 = true → storageConfigured cfg = true →
        env.s3 = .noCredentials →
      (download_video cfg req env).response =
        ⟨500, .errorDetail "Error interno del servidor: 500: Error de configuración de credenciales de AWS."⟩)
    ∧ (∀ m, env.dl = .success true → req.to_s3 = true → storageConfigured cfg = true →
        env.s3 = .clientError m →
      (download_video cfg req env).response =
        ⟨500, .errorDetail ("Error interno del servidor: 500: Error al interactuar con S3: " ++ m)⟩) := by
  obtain ⟨u, cw, dl, s3, rf⟩ := env
  refine ⟨?_, ?_, ?_, ?_⟩
  · intro h; simp only at h; subst h
    simp [download_video, runTry, handleExc, strOfExc, runFinally]
    decide
  · intro h hs3 hcfg; simp only at h; subst h
    simp [download_video, runTry, hs3, hcfg, handleExc, strOfExc, runFinally]
    decide
  · intro h hs3 hcfg hs; simp only at h; subst h; simp only at hs; subst hs
    simp [download_video, runTry, hs3, hcfg, handleExc, strOfExc, runFinally]
    decide
  · intro m h hs3 hcfg hs; simp only at h; subst h; simp only at hs; subst hs
    simp [download_video, runTry, hs3, hcfg, handleExc, strOfExc, runFinally]
    rw [← str_append_assoc _ _ ("Error al interactuar con S3: " ++ m)]
    rw [← str_append_assoc _ _ m]
    congr 1

/-- Claim C9 witness: the 501 wrap and the client-error wrap at concrete
inputs. -/
theorem C9_witness :
    (download_video ⟨"secret", none, some "ak", some "sk", some "eu"⟩
      ⟨"https://youtu.be/abc", "mp4", true⟩
      ⟨"j1", "/srv", .success true, .ok "u", false⟩).response =
      ⟨500, .errorDetail "Error interno del servidor: 501: El servidor no está configurado para subir a S3."⟩
    ∧ (download_video ⟨"secret", some "bkt", some "ak", some "sk", some "eu"⟩
      ⟨"https://youtu.be/abc", "mp4", true⟩
      ⟨"j1", "/srv", .success true, .clientError "denied", false⟩).response =
      ⟨500, .errorDetail ("Error interno del servidor: 500: Error al interactuar con S3: " ++ "denied")⟩ :=
  ⟨(C9_catchall_wraps ⟨"secret", none, some "ak", some "sk", some "eu"⟩
      ⟨"https://youtu.be/abc", "mp4", true⟩
      ⟨"j1", "/srv", .success true, .ok "u", false⟩).2.1 rfl rfl (by decide),
   (C9_catchall_wraps ⟨"secret", some "bkt", some "ak", some "sk", some "eu"⟩
      ⟨"https://youtu.be/abc", "mp4", true⟩
      ⟨"j1", "/srv", .success true, .clientError "denied", false⟩).2.2.2 "denied" rfl rfl
      (by decide) rfl⟩

/-- Claim C10: when the header starts with "Bearer ", the token compared
against the API key is exactly `key.split(" ")[1]` — the first
space-separated word after "Bearer" — so extra words after the token do
not prevent authentication, and a double space after "Bearer" makes the
compared token the empty string, which is rejected with 401. -/
theorem C10_first_word_token (apiKey k : String)
    (hk : pyStartsWith k "Bearer " = true) :
    ((pySplit k ' ').getD 1 "" = apiKey → authenticate apiKey (some k) = .ok apiKey)
    ∧ ((pySplit k ' ').getD 1 "" ≠ apiKey →
      authenticate apiKey (some k) = .error ⟨401, "API Key inválido o expirado."⟩) := by
  have hne : k ≠ "" := by
    intro h; rw [h] at hk; exact absurd hk (by decide)
  constructor
  · intro h
    simp only [List.getD, List.get?_eq_getElem?] at h
    simp [authenticate, apiKeyHeaderCheck, hne, get_api_key, hk, h]
  · intro h
    simp only [List.getD, List.get?_eq_getElem?] at h
    simp [authenticate, apiKeyHeaderCheck, hne, get_api_key, hk, h]

/-- Claim C10 witness: "Bearer secret extra" authenticates against key
"secret"; "Bearer  secret" (double space) is rejected with 401. -/
theorem C10_witness :
    authenticate "secret" (some "Bearer secret extra") = .ok "secret"
    ∧ authenticate "secret" (some "Bearer  secret")
      = .error ⟨401, "API Key inválido o expirado."⟩ :=
  ⟨(C10_first_word_token "secret" "Bearer secret extra" (by decide)).1 (by decide),
   (C10_first_word_token "secret" "Bearer  secret" (by decide)).2 (by decide)⟩

end YtDl
